import Mathlib

/-!
Shallow embedding of the framebuffer presentation layer of the citra repository
(src/video_core/renderer_opengl/renderer_opengl.{h,cpp}) and of the storage
stub (src/core/file_sys/file_romfs.cpp), with theorems checking the
natural-language specification against it.

Machine integers are modelled as `Nat` (all quantities involved — widths,
heights, strides, register fields, GL enumerants — are unsigned and far below
any wrap-around in the scenarios the spec describes).  Fatal paths
(`UNIMPLEMENTED()` on an unknown pixel format, the two `ASSERT`s on the
stride) are modelled by `Option`: `none` means the process aborted and the
operation returned no result.
-/

namespace Citra

/-! ## OpenGL enumerant values (from the generated GL 2.1 core header) -/

def GL_RGB : Nat := 0x1907
def GL_RGBA : Nat := 0x1908
def GL_BGR : Nat := 0x80E0
def GL_UNSIGNED_BYTE : Nat := 0x1401
def GL_UNSIGNED_INT_8_8_8_8 : Nat := 0x8035
def GL_UNSIGNED_SHORT_5_6_5 : Nat := 0x8363
def GL_UNSIGNED_SHORT_5_5_5_1 : Nat := 0x8034
def GL_UNSIGNED_SHORT_4_4_4_4 : Nat := 0x8033

/-- Number of colour channels a GL transfer format describes (GL 2.1 spec,
table 3.6): `GL_RGB` and `GL_BGR` are three-channel, `GL_RGBA` four-channel. -/
def glFormatChannels (fmt : Nat) : Nat :=
  if fmt = GL_RGB then 3
  else if fmt = GL_BGR then 3
  else if fmt = GL_RGBA then 4
  else 0

/-- Whether a GL transfer format lists its channels in the reverse of RGB(A)
order: only `GL_BGR` among the formats this renderer uses. -/
def glFormatReversed (fmt : Nat) : Bool :=
  fmt = GL_BGR

/-- Whether a GL component type is a packed 16-bit type (one half-word holds a
whole pixel). -/
def glTypePacked16 (ty : Nat) : Bool :=
  ty = GL_UNSIGNED_SHORT_5_6_5 || ty = GL_UNSIGNED_SHORT_5_5_5_1 ||
    ty = GL_UNSIGNED_SHORT_4_4_4_4

/-- Whether a GL component type is a packed 32-bit word with four 8-bit
channels. -/
def glTypePacked8888 (ty : Nat) : Bool :=
  ty = GL_UNSIGNED_INT_8_8_8_8

/-! ## Emulated-hardware data model

`GPU::Regs::PixelFormat` and `GPU::Regs::FramebufferConfig` are declared in
core/hw/gpu.h, which is outside the reviewed sources; their shape is taken
from the spec (§3, §6: address pair, active-buffer selector, width, height,
byte stride, format code) and from how renderer_opengl.cpp reads them. -/

namespace PixelFormat

def RGBA8 : Nat := 0
def RGB8 : Nat := 1
def RGB565 : Nat := 2
def RGB5A1 : Nat := 3
def RGBA4 : Nat := 4

end PixelFormat

/-- Modelled from the spec: `GPU::Regs::BytesPerPixel` is declared in
core/hw/gpu.h, outside the reviewed sources.  §4.1 fixes the widths: RGBA8 is
a 32-bit four-channel format (4 bytes), RGB8 a 24-bit three-channel format
(3 bytes), and RGB565, RGB5A1, RGBA4 are 16-bit formats (2 bytes). -/
def BytesPerPixel (format : Nat) : Nat :=
  if format = PixelFormat.RGBA8 then 4
  else if format = PixelFormat.RGB8 then 3
  else 2

/-- `GPU::Regs::FramebufferConfig`, as read by the renderer: two candidate
source addresses, the active-buffer selector, geometry, byte stride and the
colour format code. -/
structure FramebufferConfig where
  address_left1 : Nat
  address_left2 : Nat
  active_fb : Nat
  width : Nat
  height : Nat
  stride : Nat
  color_format : Nat
  deriving Repr, DecidableEq

/-- `LCD::Regs::ColorFill`, as read by `SwapBuffers`: the enable bit and the
three 8-bit colour channels. -/
structure ColorFill where
  is_enabled : Bool
  color_r : Nat
  color_g : Nat
  color_b : Nat
  deriving Repr, DecidableEq

/-- `RendererOpenGL::TextureInfo` (renderer_opengl.h lines 42-49): handle,
current geometry, current pixel format and the backend transfer descriptor. -/
structure TextureInfo where
  handle : Nat
  width : Nat
  height : Nat
  format : Nat
  gl_format : Nat
  gl_type : Nat
  deriving Repr, DecidableEq

/-- The slice of ambient GL state the renderer touches: the texture bound to
`GL_TEXTURE_2D` and the `GL_UNPACK_ROW_LENGTH` pixel-store parameter (both
default to 0). -/
structure GLState where
  bound_texture_2d : Nat
  unpack_row_length : Nat
  deriving Repr, DecidableEq

/-- A record of the pixel upload a screen update performed: either the 1×1
solid-colour upload of `LoadColorToActiveGLTexture`, or the
`glTexSubImage2D` upload of `LoadFBToActiveGLTexture` (source virtual
address, geometry, row length in pixels, and the transfer descriptor used). -/
inductive Upload where
  | solidColor (r g b : Nat)
  | pixels (vaddr width height pixel_stride gl_format gl_type : Nat)
  deriving Repr, DecidableEq

/-! ## The pixel format converter -/

/-- `RendererOpenGL::ConfigureFramebufferTexture` (renderer_opengl.cpp lines
229-280).  The texture's `format`, `width` and `height` fields are assigned
before the switch; the switch picks `internal_format`, `gl_format` and
`gl_type` for the five known formats and hits `UNIMPLEMENTED()` (modelled as
`none`) for every other code.  Returns the updated `TextureInfo` together
with the chosen `internal_format`. -/
def ConfigureFramebufferTexture (texture : TextureInfo)
    (framebuffer : FramebufferConfig) : Option (TextureInfo × Nat) :=
  let format := framebuffer.color_format
  let texture := { texture with
    format := format, width := framebuffer.width, height := framebuffer.height }
  if format = PixelFormat.RGBA8 then
    some ({ texture with gl_format := GL_RGBA, gl_type := GL_UNSIGNED_INT_8_8_8_8 }, GL_RGBA)
  else if format = PixelFormat.RGB8 then
    -- BGR: byte-order quirk of the emulated 24-bit format, kept as in source
    some ({ texture with gl_format := GL_BGR, gl_type := GL_UNSIGNED_BYTE }, GL_RGB)
  else if format = PixelFormat.RGB565 then
    some ({ texture with gl_format := GL_RGB, gl_type := GL_UNSIGNED_SHORT_5_6_5 }, GL_RGB)
  else if format = PixelFormat.RGB5A1 then
    some ({ texture with gl_format := GL_RGBA, gl_type := GL_UNSIGNED_SHORT_5_5_5_1 }, GL_RGBA)
  else if format = PixelFormat.RGBA4 then
    some ({ texture with gl_format := GL_RGBA, gl_type := GL_UNSIGNED_SHORT_4_4_4_4 }, GL_RGBA)
  else
    none

/-! ## The texture resource manager -/

/-- The reallocation condition of `SwapBuffers` (renderer_opengl.cpp lines
98-100): the stored texture's width, height or format differs from the
framebuffer's. -/
def needRealloc (tex : TextureInfo) (fb : FramebufferConfig) : Bool :=
  tex.width != fb.width || tex.height != fb.height ||
    tex.format != fb.color_format

/-- The reallocation check of `SwapBuffers` (renderer_opengl.cpp lines
97-105): when `needRealloc` holds, `ConfigureFramebufferTexture` is run (the
`glTexImage2D` there leaves the texture bound and counts as one backend
allocation); otherwise nothing happens.  Returns the stored texture state,
the GL state and the number of allocations performed (0 or 1). -/
def ensureReady (tex : TextureInfo) (fb : FramebufferConfig) (gl : GLState) :
    Option (TextureInfo × GLState × Nat) :=
  if needRealloc tex fb then
    match ConfigureFramebufferTexture tex fb with
    | none => none
    | some (t, _) =>
      some (t, { gl with bound_texture_2d := t.handle }, 1)
  else
    some (tex, gl, 0)

/-- The source physical address `LoadFBToActiveGLTexture` reads from
(renderer_opengl.cpp line 137): the first candidate when `active_fb` is 0,
the second otherwise. -/
def selectedFbAddr (fb : FramebufferConfig) : Nat :=
  if fb.active_fb = 0 then fb.address_left1 else fb.address_left2

/-- `RendererOpenGL::LoadFBToActiveGLTexture` (renderer_opengl.cpp lines
133-169).  `resolve` stands for the external
`Memory::PhysicalToVirtualAddress` collaborator.  The two `ASSERT`s on the
stride are modelled as the success condition; on success the function binds
the texture, sets `GL_UNPACK_ROW_LENGTH` to the pixel stride, issues the
`glTexSubImage2D` upload, then resets the row length to 0 and unbinds. -/
def LoadFBToActiveGLTexture (resolve : Nat → Nat) (fb : FramebufferConfig)
    (texture : TextureInfo) (gl : GLState) : Option (GLState × Upload) :=
  let framebuffer_vaddr := resolve (selectedFbAddr fb)
  let bpp := BytesPerPixel fb.color_format
  let pixel_stride := fb.stride / bpp
  if pixel_stride * bpp = fb.stride ∧ pixel_stride % 4 = 0 then
    let gl := { gl with bound_texture_2d := texture.handle }
    let gl := { gl with unpack_row_length := pixel_stride }
    let upload := Upload.pixels framebuffer_vaddr fb.width fb.height
      pixel_stride texture.gl_format texture.gl_type
    let gl := { gl with unpack_row_length := 0 }
    let gl := { gl with bound_texture_2d := 0 }
    some (gl, upload)
  else
    none

/-- `RendererOpenGL::LoadColorToActiveGLTexture` (renderer_opengl.cpp lines
176-185): binds the texture, uploads the single `(r, g, b)` pixel as a 1×1
image, and unbinds. -/
def LoadColorToActiveGLTexture (color_r color_g color_b : Nat)
    (texture : TextureInfo) (gl : GLState) : GLState × Upload :=
  let gl := { gl with bound_texture_2d := texture.handle }
  let upload := Upload.solidColor color_r color_g color_b
  let gl := { gl with bound_texture_2d := 0 }
  (gl, upload)

/-! ## The per-screen update of `SwapBuffers` -/

/-- One iteration of the per-screen loop in `RendererOpenGL::SwapBuffers`
(renderer_opengl.cpp lines 82-112): if the screen's colour fill is enabled,
upload the solid colour and force the stored texture to 1×1; otherwise run
the reallocation check, upload the framebuffer pixels, and store the
framebuffer's width and height.  Returns the stored texture, the GL state,
the number of reallocations (`ConfigureFramebufferTexture` runs) and the
upload performed. -/
def screenUpdate (resolve : Nat → Nat) (tex : TextureInfo) (cf : ColorFill)
    (fb : FramebufferConfig) (gl : GLState) :
    Option (TextureInfo × GLState × Nat × Upload) :=
  if cf.is_enabled then
    let (gl, upload) := LoadColorToActiveGLTexture cf.color_r cf.color_g
      cf.color_b tex gl
    some ({ tex with width := 1, height := 1 }, gl, 0, upload)
  else
    match ensureReady tex fb gl with
    | none => none
    | some (t, gl, n) =>
      match LoadFBToActiveGLTexture resolve fb t gl with
      | none => none
      | some (gl, upload) =>
        some ({ t with width := fb.width, height := fb.height }, gl, n, upload)

/-! ## The presentation loop -/

/-- The renderer state the claims track: the two per-screen textures and the
monotonic frame counter (`m_current_frame`, inherited from `RendererBase`,
incremented in `DrawScreens`). -/
structure RendererState where
  texture0 : TextureInfo
  texture1 : TextureInfo
  m_current_frame : Nat
  deriving Repr, DecidableEq

/-- The register snapshot one `SwapBuffers` call reads: colour-fill state and
framebuffer config for each of the two screens. -/
structure Frame where
  cf0 : ColorFill
  cf1 : ColorFill
  fb0 : FramebufferConfig
  fb1 : FramebufferConfig
  deriving Repr, DecidableEq

/-- `RendererOpenGL::DrawScreens` (renderer_opengl.cpp lines 302-325): draws
both screens (leaving the second screen's texture bound) and increments
`m_current_frame` by one. -/
def DrawScreens (st : RendererState) (gl : GLState) : RendererState × GLState :=
  ({ st with m_current_frame := st.m_current_frame + 1 },
   { gl with bound_texture_2d := st.texture1.handle })

/-- `RendererOpenGL::SwapBuffers` (renderer_opengl.cpp lines 79-128): update
both screens from the frame's register snapshot, then `DrawScreens`.
`none` models the fatal paths (unknown format, stride assertion). -/
def SwapBuffers (resolve : Nat → Nat) (st : RendererState) (fr : Frame)
    (gl : GLState) : Option (RendererState × GLState) :=
  match screenUpdate resolve st.texture0 fr.cf0 fr.fb0 gl with
  | none => none
  | some (t0, gl, _, _) =>
    match screenUpdate resolve st.texture1 fr.cf1 fr.fb1 gl with
    | none => none
    | some (t1, gl, _, _) =>
      some (DrawScreens { st with texture0 := t0, texture1 := t1 } gl)

/-- A sequence of consecutive presented frames: `SwapBuffers` once per
element of the input list. -/
def runFrames (resolve : Nat → Nat) (st : RendererState) (gl : GLState) :
    List Frame → Option (RendererState × GLState)
  | [] => some (st, gl)
  | fr :: rest =>
    match SwapBuffers resolve st fr gl with
    | none => none
    | some (st, gl) => runFrames resolve st gl rest

/-! ## The layout engine -/

/-- A 3×2 matrix as laid out in the `std::array<GLfloat, 3*2>` of
`MakeOrthographicMatrix`: column-major, so column 0 is `(m0, m1)`, column 1
is `(m2, m3)`, column 2 is `(m4, m5)`.  GLfloat arithmetic is idealised as
exact rational arithmetic. -/
structure Matrix3x2 where
  m0 : ℚ
  m1 : ℚ
  m2 : ℚ
  m3 : ℚ
  m4 : ℚ
  m5 : ℚ
  deriving Repr, DecidableEq

/-- `MakeOrthographicMatrix` (renderer_opengl.cpp lines 58-66). -/
def MakeOrthographicMatrix (width height : ℚ) : Matrix3x2 :=
  { m0 := 2 / width, m2 := 0,          m4 := -1
    m1 := 0,         m3 := -2 / height, m5 := 1 }

/-- Application of the 3×2 matrix to a point, as the vertex shader does with
the last row implicitly `[0, 0, 1]`. -/
def applyMatrix (m : Matrix3x2) (x y : ℚ) : ℚ × ℚ :=
  (m.m0 * x + m.m2 * y + m.m4, m.m1 * x + m.m3 * y + m.m5)

end Citra

/-! ## The storage-access stub (src/core/file_sys/file_romfs.cpp)

`size_t` is modelled as a natural below `2 ^ w` for a word width `w`; the
C++ `return -1;` converts −1 to `size_t`, i.e. to `2 ^ w - 1` (`SIZE_MAX`).
The byte buffers are plain lists; a function that never writes through its
buffer pointer returns the list unchanged. -/

namespace FileSys

/-- The value of `(size_t)(-1)` at word width `w`: all ones, `SIZE_MAX`. -/
def sizeTNegOne (w : Nat) : Nat := 2 ^ w - 1

namespace File_RomFS

/-- `File_RomFS::Read` (file_romfs.cpp lines 27-29): returns −1 as `size_t`
and never touches the buffer. -/
def Read (w : Nat) (_offset : Nat) (_length : Nat) (buffer : List Nat) :
    Nat × List Nat :=
  (sizeTNegOne w, buffer)

/-- `File_RomFS::Write` (file_romfs.cpp lines 39-41): returns −1 as `size_t`;
the buffer is read-only and untouched. -/
def Write (w : Nat) (_offset : Nat) (_length : Nat) (_flush : Nat)
    (buffer : List Nat) : Nat × List Nat :=
  (sizeTNegOne w, buffer)

/-- `File_RomFS::GetSize` (file_romfs.cpp lines 47-49): returns −1 as
`size_t`. -/
def GetSize (w : Nat) : Nat := sizeTNegOne w

/-- `File_RomFS::Close` (file_romfs.cpp lines 55-57): always `false`. -/
def Close : Bool := false

end File_RomFS

end FileSys

/-! ## Concrete fixtures used by the witness theorems -/

namespace Citra

/-- A texture as it stands before the first frame: handle 7, no geometry. -/
def tex0 : TextureInfo := ⟨7, 0, 0, 0, 0, 0⟩

/-- The second screen's texture before the first frame: handle 8. -/
def tex1c : TextureInfo := ⟨8, 0, 0, 0, 0, 0⟩

/-- GL state with all touched parameters at their defaults. -/
def gl0 : GLState := ⟨0, 0⟩

/-- A colour fill that is enabled, colour (10, 20, 30). -/
def cfOn : ColorFill := ⟨true, 10, 20, 30⟩

/-- A colour fill that is disabled. -/
def cfOff : ColorFill := ⟨false, 0, 0, 0⟩

/-- A 400×240 RGBA8 framebuffer with stride 1600 (the accepted stride of the
spec's example). -/
def fb1600 : FramebufferConfig :=
  ⟨0x18000000, 0x18046500, 0, 400, 240, 1600, PixelFormat.RGBA8⟩

/-- The same framebuffer with the rejected stride 1602. -/
def fb1602 : FramebufferConfig := { fb1600 with stride := 1602 }

/-- A frame whose two screens are both colour-filled. -/
def frFill : Frame := ⟨cfOn, cfOn, fb1600, fb1600⟩

/-- Renderer state before the first frame. -/
def st0 : RendererState := ⟨tex0, tex1c, 0⟩

/-- Helper: whenever `ConfigureFramebufferTexture` returns a descriptor, the
stored metadata was set to the framebuffer's width, height and format, and
the handle was kept. -/
lemma configure_sets_metadata (tex : TextureInfo) (fb : FramebufferConfig)
    (t : TextureInfo) (i : Nat)
    (h : ConfigureFramebufferTexture tex fb = some (t, i)) :
    t.width = fb.width ∧ t.height = fb.height ∧
      t.format = fb.color_format ∧ t.handle = tex.handle := by
  simp only [ConfigureFramebufferTexture] at h
  split_ifs at h
  all_goals
    first
      | exact Option.noConfusion h
      | (injection h with h2; injection h2 with ht hi; subst ht; simp)

/-- Helper: for each of the five recognised format codes,
`ConfigureFramebufferTexture` returns a descriptor. -/
lemma configure_isSome_of_valid (tex : TextureInfo) (fb : FramebufferConfig)
    (hfmt : fb.color_format < 5) :
    ∃ t i, ConfigureFramebufferTexture tex fb = some (t, i) := by
  simp only [ConfigureFramebufferTexture, PixelFormat.RGBA8, PixelFormat.RGB8,
    PixelFormat.RGB565, PixelFormat.RGB5A1, PixelFormat.RGBA4]
  interval_cases h : fb.color_format <;> simp

end Citra

open Citra FileSys

/-- C1: for every one of the five supported pixel formats the converter
`ConfigureFramebufferTexture` returns the descriptor of the documented table
(RGBA8 → 4-channel GL_RGBA with the packed 8-bit-per-channel word type;
RGB8 → 3-channel GL_BGR, channel-reversed, byte type; RGB565 → packed 16-bit
5-6-5, not reversed; RGB5A1 and RGBA4 → packed 16-bit 4-channel types), and
every other format code takes the fatal path and returns no descriptor. -/
theorem C1_converter_table (tex : TextureInfo) (fb : FramebufferConfig) :
    (fb.color_format = PixelFormat.RGBA8 →
      ∃ t i, ConfigureFramebufferTexture tex fb = some (t, i) ∧
        t.gl_format = GL_RGBA ∧ glFormatChannels t.gl_format = 4 ∧
        glFormatReversed t.gl_format = false ∧
        t.gl_type = GL_UNSIGNED_INT_8_8_8_8 ∧
        glTypePacked8888 t.gl_type = true) ∧
    (fb.color_format = PixelFormat.RGB8 →
      ∃ t i, ConfigureFramebufferTexture tex fb = some (t, i) ∧
        t.gl_format = GL_BGR ∧ glFormatChannels t.gl_format = 3 ∧
        glFormatReversed t.gl_format = true ∧
        t.gl_type = GL_UNSIGNED_BYTE) ∧
    (fb.color_format = PixelFormat.RGB565 →
      ∃ t i, ConfigureFramebufferTexture tex fb = some (t, i) ∧
        t.gl_format = GL_RGB ∧ glFormatChannels t.gl_format = 3 ∧
        glFormatReversed t.gl_format = false ∧
        t.gl_type = GL_UNSIGNED_SHORT_5_6_5 ∧
        glTypePacked16 t.gl_type = true) ∧
    (fb.color_format = PixelFormat.RGB5A1 →
      ∃ t i, ConfigureFramebufferTexture tex fb = some (t, i) ∧
        t.gl_format = GL_RGBA ∧ glFormatChannels t.gl_format = 4 ∧
        t.gl_type = GL_UNSIGNED_SHORT_5_5_5_1 ∧
        glTypePacked16 t.gl_type = true) ∧
    (fb.color_format = PixelFormat.RGBA4 →
      ∃ t i, ConfigureFramebufferTexture tex fb = some (t, i) ∧
        t.gl_format = GL_RGBA ∧ glFormatChannels t.gl_format = 4 ∧
        t.gl_type = GL_UNSIGNED_SHORT_4_4_4_4 ∧
        glTypePacked16 t.gl_type = true) ∧
    (fb.color_format ≠ PixelFormat.RGBA8 → fb.color_format ≠ PixelFormat.RGB8 →
      fb.color_format ≠ PixelFormat.RGB565 →
      fb.color_format ≠ PixelFormat.RGB5A1 →
      fb.color_format ≠ PixelFormat.RGBA4 →
      ConfigureFramebufferTexture tex fb = none) := by
  refine ⟨?_, ?_, ?_, ?_, ?_, ?_⟩ <;> intro h
  case _ =>
    simp [ConfigureFramebufferTexture, h, glFormatChannels, glFormatReversed,
      glTypePacked8888, PixelFormat.RGBA8, GL_RGB, GL_RGBA, GL_BGR,
      GL_UNSIGNED_INT_8_8_8_8]
  case _ =>
    simp [ConfigureFramebufferTexture, h, glFormatChannels, glFormatReversed,
      PixelFormat.RGBA8, PixelFormat.RGB8, GL_RGB, GL_RGBA, GL_BGR,
      GL_UNSIGNED_BYTE]
  case _ =>
    simp [ConfigureFramebufferTexture, h, glFormatChannels, glFormatReversed,
      glTypePacked16, PixelFormat.RGBA8, PixelFormat.RGB8, PixelFormat.RGB565,
      GL_RGB, GL_RGBA, GL_BGR, GL_UNSIGNED_SHORT_5_6_5,
      GL_UNSIGNED_SHORT_5_5_5_1, GL_UNSIGNED_SHORT_4_4_4_4]
  case _ =>
    simp [ConfigureFramebufferTexture, h, glFormatChannels, glTypePacked16,
      PixelFormat.RGBA8, PixelFormat.RGB8, PixelFormat.RGB565,
      PixelFormat.RGB5A1, GL_RGB, GL_RGBA, GL_BGR, GL_UNSIGNED_SHORT_5_6_5,
      GL_UNSIGNED_SHORT_5_5_5_1, GL_UNSIGNED_SHORT_4_4_4_4]
  case _ =>
    simp [ConfigureFramebufferTexture, h, glFormatChannels, glTypePacked16,
      PixelFormat.RGBA8, PixelFormat.RGB8, PixelFormat.RGB565,
      PixelFormat.RGB5A1, PixelFormat.RGBA4, GL_RGB, GL_RGBA, GL_BGR,
      GL_UNSIGNED_SHORT_5_6_5, GL_UNSIGNED_SHORT_5_5_5_1,
      GL_UNSIGNED_SHORT_4_4_4_4]
  case _ =>
    intro h1 h2 h3 h4
    simp [ConfigureFramebufferTexture, h, h1, h2, h3, h4]

/-- C1 witness: the table at the concrete format codes RGB8 (a descriptor
with the reversed 3-channel transfer) and 7 (the fatal path). -/
theorem C1_converter_table_witness :
    (∃ t i,
      ConfigureFramebufferTexture tex0 { fb1600 with color_format := PixelFormat.RGB8 }
        = some (t, i) ∧
      t.gl_format = GL_BGR ∧ glFormatChannels t.gl_format = 3 ∧
      glFormatReversed t.gl_format = true ∧ t.gl_type = GL_UNSIGNED_BYTE) ∧
    ConfigureFramebufferTexture tex0 { fb1600 with color_format := 7 } = none :=
  ⟨(C1_converter_table tex0 _).2.1 rfl,
   (C1_converter_table tex0 _).2.2.2.2.2 (by decide) (by decide) (by decide)
     (by decide) (by decide)⟩

/-- C2: the reallocation check of `SwapBuffers` is idempotent — after any
successful `ensureReady` call, a second call with the unchanged (width,
height, format) performs zero allocations and changes nothing; conversely,
whenever the stored TextureInfo differs from the config in width, height or
format (and the format is one of the five recognised codes), exactly one
reallocation occurs and the stored metadata is updated to the config's
(width, height, format). -/
theorem C2_ensureReady_idempotent (tex : TextureInfo) (fb : FramebufferConfig)
    (gl : GLState) :
    (∀ t1 g1 n1, ensureReady tex fb gl = some (t1, g1, n1) →
      ensureReady t1 fb g1 = some (t1, g1, 0)) ∧
    (needRealloc tex fb = true → fb.color_format < 5 →
      ∃ t1 g1, ensureReady tex fb gl = some (t1, g1, 1) ∧
        t1.width = fb.width ∧ t1.height = fb.height ∧
        t1.format = fb.color_format) := by
  constructor
  · intro t1 g1 n1 h
    cases hr : needRealloc tex fb with
    | false =>
      simp only [ensureReady, hr] at h
      simp only [Bool.false_eq_true, if_false, Option.some.injEq,
        Prod.mk.injEq] at h
      obtain ⟨h1, h2, _⟩ := h
      subst h1; subst h2
      simp [ensureReady, hr]
    | true =>
      simp only [ensureReady, hr, if_true] at h
      cases hc : ConfigureFramebufferTexture tex fb with
      | none => rw [hc] at h; exact Option.noConfusion h
      | some ti =>
        obtain ⟨t, i⟩ := ti
        rw [hc] at h
        simp only [Option.some.injEq, Prod.mk.injEq] at h
        obtain ⟨h1, h2, _⟩ := h
        obtain ⟨hw, hh, hf, _⟩ := configure_sets_metadata tex fb t i hc
        subst h1; subst h2
        have hnr : needRealloc t fb = false := by
          simp [needRealloc, hw, hh, hf]
        simp [ensureReady, hnr]
  · intro hr hfmt
    obtain ⟨t, i, hc⟩ := configure_isSome_of_valid tex fb hfmt
    obtain ⟨hw, hh, hf, _⟩ := configure_sets_metadata tex fb t i hc
    exact ⟨t, { gl with bound_texture_2d := t.handle },
      by simp [ensureReady, hr, hc], hw, hh, hf⟩

/-- C2 witness: a stored texture with no geometry against a 400×240 RGBA8
config — the first call performs exactly one allocation and stores the new
metadata, and a second call after that first one performs zero allocations
and leaves everything unchanged. -/
theorem C2_ensureReady_idempotent_witness :
    (needRealloc tex0 fb1600 = true ∧ fb1600.color_format < 5 ∧
      ∃ t1 g1, ensureReady tex0 fb1600 gl0 = some (t1, g1, 1) ∧
        t1.width = fb1600.width ∧ t1.height = fb1600.height ∧
        t1.format = fb1600.color_format) ∧
    ensureReady ⟨7, 400, 240, 0, GL_RGBA, GL_UNSIGNED_INT_8_8_8_8⟩ fb1600
        ⟨7, 0⟩ =
      some (⟨7, 400, 240, 0, GL_RGBA, GL_UNSIGNED_INT_8_8_8_8⟩, ⟨7, 0⟩, 0) :=
  ⟨⟨by decide, by decide,
    (C2_ensureReady_idempotent tex0 fb1600 gl0).2 (by decide) (by decide)⟩,
   (C2_ensureReady_idempotent tex0 fb1600 gl0).1
     ⟨7, 400, 240, 0, GL_RGBA, GL_UNSIGNED_INT_8_8_8_8⟩ ⟨7, 0⟩ 1 (by decide)⟩

/-- C3: when a screen's colour fill is enabled, the pixel-buffer path is
bypassed (the only upload is the solid colour, and no reallocation runs),
the stored TextureInfo ends with width 1 and height 1 regardless of the
paired framebuffer config, and the uploaded pixel is exactly the configured
(r, g, b). -/
theorem C3_color_fill_override (resolve : Nat → Nat) (tex : TextureInfo)
    (cf : ColorFill) (fb : FramebufferConfig) (gl : GLState)
    (h : cf.is_enabled = true) :
    ∃ t gl2, screenUpdate resolve tex cf fb gl =
        some (t, gl2, 0, Upload.solidColor cf.color_r cf.color_g cf.color_b) ∧
      t.width = 1 ∧ t.height = 1 := by
  refine ⟨{ tex with width := 1, height := 1 },
    { gl with bound_texture_2d := 0 }, ?_, rfl, rfl⟩
  simp [screenUpdate, h, LoadColorToActiveGLTexture]

/-- C3 witness: an enabled (10, 20, 30) fill against the 400×240 config
yields the 1×1 texture and the (10, 20, 30) solid-colour upload. -/
theorem C3_color_fill_override_witness :
    cfOn.is_enabled = true ∧
    ∃ t gl2, screenUpdate id tex0 cfOn fb1600 gl0 =
        some (t, gl2, 0, Upload.solidColor 10 20 30) ∧
      t.width = 1 ∧ t.height = 1 :=
  ⟨by decide, C3_color_fill_override id tex0 cfOn fb1600 gl0 (by decide)⟩

/-- C9: the colour-fill branch mutates only the stored TextureInfo's width
and height (both forced to 1); its handle, format and transfer descriptor
(gl_format, gl_type) are unchanged.  Consequently the reallocation condition
holds against any later framebuffer config whose width or height is not 1,
even one with the same format. -/
theorem C9_color_fill_mutates_only_geometry (resolve : Nat → Nat)
    (tex : TextureInfo) (cf : ColorFill) (fb : FramebufferConfig)
    (gl : GLState) (h : cf.is_enabled = true) :
    ∃ gl2 n up, screenUpdate resolve tex cf fb gl =
        some ({ tex with width := 1, height := 1 }, gl2, n, up) ∧
      ∀ fb2 : FramebufferConfig, fb2.width ≠ 1 ∨ fb2.height ≠ 1 →
        needRealloc { tex with width := 1, height := 1 } fb2 = true := by
  refine ⟨{ gl with bound_texture_2d := 0 }, 0,
    Upload.solidColor cf.color_r cf.color_g cf.color_b, ?_, ?_⟩
  · simp [screenUpdate, h, LoadColorToActiveGLTexture]
  · intro fb2 hfb2
    rcases hfb2 with h1 | h1 <;> simp [needRealloc, bne_iff_ne] <;> tauto

/-- C9 witness: after the colour-fill frame the stored texture is `tex0`
with width and height forced to 1 (handle, format and descriptor intact),
and the later 400×240 same-format config triggers the reallocation
condition. -/
theorem C9_color_fill_mutates_only_geometry_witness :
    cfOn.is_enabled = true ∧ (fb1600.width ≠ 1 ∨ fb1600.height ≠ 1) ∧
    ∃ gl2 n up, screenUpdate id tex0 cfOn fb1600 gl0 =
        some ({ tex0 with width := 1, height := 1 }, gl2, n, up) ∧
      needRealloc { tex0 with width := 1, height := 1 } fb1600 = true := by
  refine ⟨by decide, by decide, ?_⟩
  obtain ⟨gl2, n, up, h, hr⟩ :=
    C9_color_fill_mutates_only_geometry id tex0 cfOn fb1600 gl0 (by decide)
  exact ⟨gl2, n, up, h, hr fb1600 (by decide)⟩

/-- C4: the stride contract of `LoadFBToActiveGLTexture` accepts a config
exactly when the byte stride is an exact multiple of the format's bytes per
pixel and the derived pixel stride is divisible by 4. -/
theorem C4_stride_contract (resolve : Nat → Nat) (fb : FramebufferConfig)
    (tex : TextureInfo) (gl : GLState) (hfmt : fb.color_format < 5) :
    (LoadFBToActiveGLTexture resolve fb tex gl).isSome = true ↔
      (BytesPerPixel fb.color_format ∣ fb.stride ∧
        4 ∣ fb.stride / BytesPerPixel fb.color_format) := by
  constructor
  · intro h
    simp only [LoadFBToActiveGLTexture] at h
    split_ifs at h with hcond
    · obtain ⟨h1, h2⟩ := hcond
      exact ⟨⟨fb.stride / BytesPerPixel fb.color_format,
          by rw [Nat.mul_comm]; exact h1.symm⟩,
        Nat.dvd_of_mod_eq_zero h2⟩
    · simp at h
  · rintro ⟨h1, h2⟩
    have hc1 : fb.stride / BytesPerPixel fb.color_format *
        BytesPerPixel fb.color_format = fb.stride := Nat.div_mul_cancel h1
    have hc2 : fb.stride / BytesPerPixel fb.color_format % 4 = 0 := by
      omega
    simp [LoadFBToActiveGLTexture, hc1, hc2]

/-- C4 witness: at width 400 and the 4-bytes-per-pixel RGBA8 format, stride
1600 is accepted (pixel stride 400) and stride 1602 is rejected. -/
theorem C4_stride_contract_witness :
    fb1600.color_format < 5 ∧
    (LoadFBToActiveGLTexture id fb1600 tex0 gl0).isSome = true ∧
    (LoadFBToActiveGLTexture id fb1602 tex0 gl0).isSome = false :=
  ⟨by decide,
   (C4_stride_contract id fb1600 tex0 gl0 (by decide)).mpr
     ⟨by decide, by decide⟩,
   by decide⟩

/-- C5: the orthographic matrix maps every point by x to 2x/W − 1 and y to
−2y/H + 1, and at surface 400×240 its coefficients in row-major
(a, b, c; d, e, f) reading — (m0, m2, m4; m1, m3, m5) of the column-major
array — are (2/400, 0, −1, 0, −2/240, 1). -/
theorem C5_projection_matrix (W H x y : ℚ) (hW : 0 < W) (hH : 0 < H) :
    applyMatrix (MakeOrthographicMatrix W H) x y =
      (2 * x / W - 1, -2 * y / H + 1) ∧
    MakeOrthographicMatrix 400 240 =
      { m0 := 2 / 400, m2 := 0, m4 := -1, m1 := 0, m3 := -2 / 240, m5 := 1 } := by
  constructor
  · simp only [applyMatrix, MakeOrthographicMatrix, Prod.mk.injEq]
    constructor <;> ring
  · rfl

/-- C5 witness: the mapping at surface 400×240 and point (7, 9), together
with the concrete coefficients. -/
theorem C5_projection_matrix_witness :
    applyMatrix (MakeOrthographicMatrix 400 240) 7 9 =
      (2 * 7 / 400 - 1, -2 * 9 / 240 + 1) ∧
    MakeOrthographicMatrix 400 240 =
      { m0 := 2 / 400, m2 := 0, m4 := -1, m1 := 0, m3 := -2 / 240, m5 := 1 } :=
  C5_projection_matrix 400 240 7 9 (by decide) (by decide)

/-- C8: every successful `LoadFBToActiveGLTexture` call ends with the
`GL_UNPACK_ROW_LENGTH` override restored to its default 0 and the texture
binding restored to 0, whatever GL state it started from. -/
theorem C8_no_backend_state_leak (resolve : Nat → Nat)
    (fb : FramebufferConfig) (tex : TextureInfo) (gl gl2 : GLState)
    (up : Upload)
    (h : LoadFBToActiveGLTexture resolve fb tex gl = some (gl2, up)) :
    gl2.unpack_row_length = 0 ∧ gl2.bound_texture_2d = 0 := by
  simp only [LoadFBToActiveGLTexture] at h
  split_ifs at h
  all_goals
    first
      | exact Option.noConfusion h
      | (injection h with h2; injection h2 with hg hu; subst hg; simp)

/-- C8 witness: the accepted 400×240 stride-1600 upload, started from a GL
state with a stale binding and row length, ends with both at 0. -/
theorem C8_no_backend_state_leak_witness :
    LoadFBToActiveGLTexture id fb1600 tex0 ⟨9, 123⟩ =
      some (⟨0, 0⟩, Upload.pixels 402653184 400 240 400 0 0) ∧
    (0 : Nat) = 0 ∧ (0 : Nat) = 0 :=
  ⟨by decide,
   C8_no_backend_state_leak id fb1600 tex0 ⟨9, 123⟩ ⟨0, 0⟩
     (Upload.pixels 402653184 400 240 400 0 0) (by decide)⟩

/-- C10: the RomFS storage stub never performs any I/O — `Read`, `Write` and
`GetSize` all return −1 converted to `size_t` (all ones, `SIZE_MAX`, which
exceeds any requested length and is therefore never a valid byte count),
`Close` returns `false`, and the supplied buffer is left untouched. -/
theorem C10_romfs_stub (w offset length flush : Nat) (buffer : List Nat)
    (hlen : length < 2 ^ w - 1) :
    File_RomFS.Read w offset length buffer = (sizeTNegOne w, buffer) ∧
    File_RomFS.Write w offset length flush buffer = (sizeTNegOne w, buffer) ∧
    File_RomFS.GetSize w = sizeTNegOne w ∧
    File_RomFS.Close = false ∧
    sizeTNegOne w = 2 ^ w - 1 ∧
    length < (File_RomFS.Read w offset length buffer).1 := by
  refine ⟨rfl, rfl, rfl, rfl, rfl, ?_⟩
  simpa [File_RomFS.Read, sizeTNegOne] using hlen

/-- C10 witness: at the 64-bit word width, a 16-byte read request on a
3-byte buffer returns `SIZE_MAX` and the untouched buffer. -/
theorem C10_romfs_stub_witness :
    File_RomFS.Read 64 5 16 [1, 2, 3] = (sizeTNegOne 64, [1, 2, 3]) ∧
    File_RomFS.Write 64 5 16 0 [1, 2, 3] = (sizeTNegOne 64, [1, 2, 3]) ∧
    File_RomFS.GetSize 64 = sizeTNegOne 64 ∧
    File_RomFS.Close = false ∧
    sizeTNegOne 64 = 2 ^ 64 - 1 ∧
    16 < (File_RomFS.Read 64 5 16 [1, 2, 3]).1 :=
  C10_romfs_stub 64 5 16 0 [1, 2, 3] (by decide)

/-- Helper: a successful `LoadFBToActiveGLTexture` upload reads from the
resolved selected address with the framebuffer's geometry, derived pixel
stride and the texture's transfer descriptor. -/
lemma loadFB_upload_shape (resolve : Nat → Nat) (fb : FramebufferConfig)
    (texture : TextureInfo) (gl gl2 : GLState) (up : Upload)
    (h : LoadFBToActiveGLTexture resolve fb texture gl = some (gl2, up)) :
    up = Upload.pixels (resolve (selectedFbAddr fb)) fb.width fb.height
      (fb.stride / BytesPerPixel fb.color_format)
      texture.gl_format texture.gl_type := by
  simp only [LoadFBToActiveGLTexture] at h
  split_ifs at h
  all_goals
    first
      | exact Option.noConfusion h
      | (injection h with h2; injection h2 with hg hu; exact hu.symm)

/-- Helper: one successful `SwapBuffers` raises `m_current_frame` by exactly
one (the single increment sits in `DrawScreens`). -/
lemma swapBuffers_increments (resolve : Nat → Nat) (st : RendererState)
    (fr : Frame) (gl : GLState) (st2 : RendererState) (gl2 : GLState)
    (h : SwapBuffers resolve st fr gl = some (st2, gl2)) :
    st2.m_current_frame = st.m_current_frame + 1 := by
  simp only [SwapBuffers] at h
  cases h0 : screenUpdate resolve st.texture0 fr.cf0 fr.fb0 gl with
  | none => rw [h0] at h; exact Option.noConfusion h
  | some r0 =>
    obtain ⟨t0, gl0a, n0, up0⟩ := r0
    simp only [h0] at h
    cases h1 : screenUpdate resolve st.texture1 fr.cf1 fr.fb1 gl0a with
    | none => rw [h1] at h; exact Option.noConfusion h
    | some r1 =>
      obtain ⟨t1, gl1a, n1, up1⟩ := r1
      simp only [h1, DrawScreens, Option.some.injEq, Prod.mk.injEq] at h
      obtain ⟨h2, _⟩ := h
      rw [← h2]

/-- C6: across every sequence of consecutive frames that completes, each
`SwapBuffers` cycle increments the monotonic frame counter by exactly one —
after n frames the counter has grown by exactly n, no skips, no double
counts. -/
theorem C6_frame_counter (resolve : Nat → Nat) (st : RendererState)
    (gl : GLState) (frames : List Frame) (st2 : RendererState)
    (gl2 : GLState) (h : runFrames resolve st gl frames = some (st2, gl2)) :
    st2.m_current_frame = st.m_current_frame + frames.length := by
  induction frames generalizing st gl with
  | nil =>
    simp only [runFrames, Option.some.injEq, Prod.mk.injEq] at h
    obtain ⟨h1, _⟩ := h
    subst h1
    simp
  | cons fr rest ih =>
    simp only [runFrames] at h
    cases hsw : SwapBuffers resolve st fr gl with
    | none => rw [hsw] at h; exact Option.noConfusion h
    | some r =>
      obtain ⟨stm, glm⟩ := r
      simp only [hsw] at h
      have hstep := swapBuffers_increments resolve st fr gl stm glm hsw
      have htail := ih stm glm h
      rw [htail, hstep, List.length_cons]
      omega

/-- C6 witness: two colour-fill frames from the initial state complete and
leave the counter at exactly the initial value plus two. -/
theorem C6_frame_counter_witness :
    runFrames id st0 gl0 [frFill, frFill] =
      some (⟨⟨7, 1, 1, 0, 0, 0⟩, ⟨8, 1, 1, 0, 0, 0⟩, 2⟩, ⟨8, 0⟩) ∧
    (⟨⟨7, 1, 1, 0, 0, 0⟩, ⟨8, 1, 1, 0, 0, 0⟩, 2⟩ :
        RendererState).m_current_frame = st0.m_current_frame + 2 :=
  ⟨by decide,
   C6_frame_counter id st0 gl0 [frFill, frFill]
     ⟨⟨7, 1, 1, 0, 0, 0⟩, ⟨8, 1, 1, 0, 0, 0⟩, 2⟩ ⟨8, 0⟩ (by decide)⟩

/-- C7: for every non-colour-fill screen update that completes, the upload
reads from the address resolved (through the external memory collaborator)
from the first candidate address exactly when the active-buffer selector is
0, and from the second candidate otherwise. -/
theorem C7_active_buffer_address (resolve : Nat → Nat) (tex : TextureInfo)
    (cf : ColorFill) (fb : FramebufferConfig) (gl : GLState)
    (t : TextureInfo) (gl2 : GLState) (n : Nat) (up : Upload)
    (hcf : cf.is_enabled = false)
    (h : screenUpdate resolve tex cf fb gl = some (t, gl2, n, up)) :
    (∃ w hgt ps f ty,
      up = Upload.pixels (resolve (selectedFbAddr fb)) w hgt ps f ty) ∧
    (fb.active_fb = 0 → selectedFbAddr fb = fb.address_left1) ∧
    (fb.active_fb ≠ 0 → selectedFbAddr fb = fb.address_left2) := by
  refine ⟨?_, ?_, ?_⟩
  · simp only [screenUpdate, hcf, Bool.false_eq_true, if_false] at h
    cases he : ensureReady tex fb gl with
    | none => rw [he] at h; exact Option.noConfusion h
    | some r =>
      obtain ⟨t1, gl1a, n1⟩ := r
      simp only [he] at h
      cases hl : LoadFBToActiveGLTexture resolve fb t1 gl1a with
      | none => rw [hl] at h; exact Option.noConfusion h
      | some rl =>
        obtain ⟨glr, upr⟩ := rl
        simp only [hl, Option.some.injEq, Prod.mk.injEq] at h
        obtain ⟨_, _, _, hu⟩ := h
        refine ⟨fb.width, fb.height, fb.stride / BytesPerPixel fb.color_format,
          t1.gl_format, t1.gl_type, ?_⟩
        rw [← hu]
        exact loadFB_upload_shape resolve fb t1 gl1a glr upr hl
  · intro h0
    simp [selectedFbAddr, h0]
  · intro h0
    simp [selectedFbAddr, h0]

/-- C7 witness: the 400×240 RGBA8 config with selector 0 — the completed
update reads from the resolved first candidate address 0x18000000. -/
theorem C7_active_buffer_address_witness :
    (∃ w hgt ps f ty,
      Upload.pixels 402653184 400 240 400 GL_RGBA GL_UNSIGNED_INT_8_8_8_8 =
        Upload.pixels (id (selectedFbAddr fb1600)) w hgt ps f ty) ∧
    (fb1600.active_fb = 0 → selectedFbAddr fb1600 = fb1600.address_left1) ∧
    (fb1600.active_fb ≠ 0 → selectedFbAddr fb1600 = fb1600.address_left2) :=
  C7_active_buffer_address id tex0 cfOff fb1600 gl0
    ⟨7, 400, 240, 0, GL_RGBA, GL_UNSIGNED_INT_8_8_8_8⟩ ⟨0, 0⟩ 1
    (Upload.pixels 402653184 400 240 400 GL_RGBA GL_UNSIGNED_INT_8_8_8_8)
    (by decide) (by decide)
